import Mathlib

/-!
# Verification of the axos-agents concurrency-bounded execution gateway

Shallow embedding, in Lean 4, of the core of the `axos-agents` repository:

* `execution_limiter.py` — the sync/async counting-semaphore admission control
  (`sync_limit`, `ExecutionLimiter`, `get_stats`);
* `server.py` — the FastAPI gateway: `verify_api_key`, `create_run`
  (`POST /runs`) and `create_run_stream` (`POST /runs/stream`) including the
  SSE frame generator `generate`;
* `scheduler.py` / `api.py` — the `AutomationScheduler` (`add_automation`,
  `remove_automation`, `pause_automation`, `resume_automation`, `start`) and
  the FastAPI automation-management endpoints.

Python dicts carrying JSON payloads are modelled with a small `Json` type;
the APScheduler job table is modelled as an association list of jobs, where
`pause_job` / `resume_job` / `remove_job` raise a lookup error on an unknown
job id (as APScheduler's `JobLookupError`).  Agent graphs are opaque: their
blocking invocation is a parameter of type `Except String Json` (the value
returned, or the message of the exception raised), and their streaming
invocation is a parameter listing the emitted `(stream_mode, chunk)` events
together with an optional exception terminating the stream.
-/

namespace Axos

/-! ## JSON values (Python dict/list payloads) -/

/-- A JSON value, as carried by the Python dicts/lists the gateway moves
around.  Numbers are modelled as integers (no claim touches fractional
payloads). -/
inductive Json where
  | null : Json
  | bool : Bool → Json
  | num : Int → Json
  | str : String → Json
  | arr : List Json → Json
  | obj : List (String × Json) → Json

/-- Python `d.get(k)` on a dict: first binding of the key, if any. -/
def Json.lookup (k : String) : List (String × Json) → Option Json
  | [] => none
  | (k', v) :: rest => if k' = k then some v else Json.lookup k rest

/-- Python `d.get(k)` / `d.get(k, default)` lifted to `Json`: `none` when the
value is not a dict or the key is absent. -/
def Json.get (j : Json) (k : String) : Option Json :=
  match j with
  | .obj kvs => Json.lookup k kvs
  | _ => none

/-- Python `isinstance(x, dict)`. -/
def Json.isDict : Json → Bool
  | .obj _ => true
  | _ => false

/-- Python truthiness of a JSON value (`bool(x)`), used by the `or` chain
`body.get("assistant_id") or body.get("agent_id")` in `server.py`. -/
def Json.truthy : Json → Bool
  | .null => false
  | .bool b => b
  | .num n => n != 0
  | .str s => s != ""
  | .arr xs => !xs.isEmpty
  | .obj kvs => !kvs.isEmpty

/-- Python `a or b`. -/
def pyOr (a b : Json) : Json := if a.truthy then a else b

/-! ## `execution_limiter.py` — counting semaphores and counters

`MAX_CONCURRENT_EXECUTIONS = int(os.getenv("MAX_CONCURRENT_EXECUTIONS", "2"))`
is read once at module import.  The module then holds two independent
semaphores (`_async_semaphore`, `_sync_semaphore`), each initialised with
`MAX_CONCURRENT_EXECUTIONS` permits, and two observability counters
(`_active_async`, `_active_sync`) guarded by one lock. -/

/-- `int(os.getenv("MAX_CONCURRENT_EXECUTIONS", "2"))`: the parsed value of
the environment variable when it is set (`env` carries that parsed value),
and `int("2") = 2` when it is unset. -/
def maxConcurrentFromEnv (env : Option Nat) : Nat :=
  env.getD 2

/-- The in-process state of `execution_limiter.py`: the permit counts of the
two semaphores and the two active counters.  `maxConcurrent` records the
module constant `MAX_CONCURRENT_EXECUTIONS`. -/
structure LimiterState where
  maxConcurrent : Nat
  asyncAvail : Nat
  syncAvail : Nat
  activeAsync : Nat
  activeSync : Nat
deriving DecidableEq, Repr

/-- The module state right after import: both semaphores hold
`maxConcurrent` permits, both counters are zero. -/
def LimiterState.init (m : Nat) : LimiterState :=
  ⟨m, m, m, 0, 0⟩

/-- `get_stats()` from `execution_limiter.py`. -/
def get_stats (s : LimiterState) : Json :=
  .obj [("max_concurrent", .num s.maxConcurrent),
        ("active_async", .num s.activeAsync),
        ("active_sync", .num s.activeSync),
        ("total_active", .num (s.activeAsync + s.activeSync))]

/-- `await _async_semaphore.acquire()` followed by the counter increment in
`ExecutionLimiter.__aenter__`.  Only meaningful when a permit is available
(`asyncAvail > 0`); an acquirer facing `asyncAvail = 0` suspends. -/
def LimiterState.asyncAcquire (s : LimiterState) : LimiterState :=
  { s with asyncAvail := s.asyncAvail - 1, activeAsync := s.activeAsync + 1 }

/-- `_async_semaphore.release()` followed by the counter decrement in
`ExecutionLimiter.__aexit__`. -/
def LimiterState.asyncRelease (s : LimiterState) : LimiterState :=
  { s with asyncAvail := s.asyncAvail + 1, activeAsync := s.activeAsync - 1 }

/-- `_sync_semaphore.acquire()` followed by the counter increment in
`sync_limit`. -/
def LimiterState.syncAcquire (s : LimiterState) : LimiterState :=
  { s with syncAvail := s.syncAvail - 1, activeSync := s.activeSync + 1 }

/-- `_sync_semaphore.release()` followed by the counter decrement in
the `finally` block of `sync_limit`. -/
def LimiterState.syncRelease (s : LimiterState) : LimiterState :=
  { s with syncAvail := s.syncAvail + 1, activeSync := s.activeSync - 1 }

/-- One admitted transition of the limiter: an async or sync acquire (only
enabled while the corresponding semaphore has a permit) or the matching
release (only enabled while some holder is active). -/
inductive LimiterStep : LimiterState → LimiterState → Prop where
  | asyncAcquire {s : LimiterState} (h : 0 < s.asyncAvail) :
      LimiterStep s s.asyncAcquire
  | asyncRelease {s : LimiterState} (h : 0 < s.activeAsync) :
      LimiterStep s s.asyncRelease
  | syncAcquire {s : LimiterState} (h : 0 < s.syncAvail) :
      LimiterStep s s.syncAcquire
  | syncRelease {s : LimiterState} (h : 0 < s.activeSync) :
      LimiterStep s s.syncRelease

/-- States the limiter module can reach from its import-time state. -/
inductive LimiterReachable (m : Nat) : LimiterState → Prop where
  | init : LimiterReachable m (LimiterState.init m)
  | step {s t : LimiterState} :
      LimiterReachable m s → LimiterStep s t → LimiterReachable m t

/-- The limiter's inductive invariant: permits and active holders of each
semaphore always sum to its capacity, and the capacity is the module
constant. -/
def LimiterInv (m : Nat) (s : LimiterState) : Prop :=
  s.maxConcurrent = m ∧
  s.activeAsync + s.asyncAvail = m ∧
  s.activeSync + s.syncAvail = m

/-! ### Guarded execution under the limiter

`sync_limit` acquires, runs the body of the `with` block, and releases in a
`finally` clause, so the release happens on every exit path.
`ExecutionLimiter.__aenter__` acquires, the body of the `async with` runs,
and `__aexit__` — which the `async with` statement executes on every exit
path — releases and returns `False`, so an exception from the body still
propagates.  The body is modelled as `Except String α`: either the value it
returns or the message of the exception it raises. -/

/-- `async with ExecutionLimiter(): body` — `__aenter__`, the body, then
`__aexit__` (run on every exit path; it returns `False`, so the body's
outcome, value or exception, passes through unchanged). -/
def runWithExecutionLimiter {α : Type} (s : LimiterState) (body : Except String α) :
    Except String α × LimiterState :=
  let s1 := s.asyncAcquire
  (body, s1.asyncRelease)

/-- `with sync_limit(): body` — acquire and increment, the body, then the
`finally` clause releasing and decrementing on every exit path. -/
def runWithSyncLimit {α : Type} (s : LimiterState) (body : Except String α) :
    Except String α × LimiterState :=
  let s1 := s.syncAcquire
  (body, s1.syncRelease)

/-! ## `server.py` — stream framing (`create_run_stream.generate`)

`graph.astream(..., stream_mode=<list>)` yields `(event_type, chunk)` pairs
where `event_type` is one of LangGraph's stream-mode names.  The `generate`
coroutine maps each pair to one SSE frame (`event:` line + `data:` line),
catches any exception from the iteration as a single `error` frame, and its
`finally` clause emits the terminal `end` frame. -/

/-- A LangGraph stream mode — the possible `event_type` values yielded by
`graph.astream` when `stream_mode` is a list. -/
inductive StreamMode where
  | values | updates | messages | custom | debug
deriving DecidableEq, Repr

/-- The wire name of a stream mode, as interpolated into the `event:` line. -/
def StreamMode.name : StreamMode → String
  | .values => "values"
  | .updates => "updates"
  | .messages => "messages"
  | .custom => "custom"
  | .debug => "debug"

/-- One SSE frame: the `event:` kind and the `data:` JSON payload. -/
structure Frame where
  kind : String
  payload : Json

/-- The outcome of iterating `graph.astream(...)`: the `(event_type, chunk)`
pairs it yielded, and — when the underlying invocation raised — the
`str(e)` of the exception that ended the iteration. -/
structure AgentStream where
  events : List (StreamMode × Json)
  err : Option String

/-- The per-event body of `generate`'s `async for` loop: `messages` chunks
are repackaged as `[msg_type, chunk]` with
`msg_type = chunk.get("type", "ai") if isinstance(chunk, dict) else "ai"`;
every other event type is forwarded with its chunk unchanged. -/
def frameOfEvent : StreamMode × Json → Frame
  | (.messages, chunk) =>
      let msgType := if chunk.isDict then (chunk.get "type").getD (.str "ai") else .str "ai"
      ⟨"messages", .arr [msgType, chunk]⟩
  | (m, chunk) => ⟨m.name, chunk⟩

/-- `error` frame: `event: error` with `data: {"message": str(e)}`. -/
def errorFrame (msg : String) : Frame :=
  ⟨"error", .obj [("message", .str msg)]⟩

/-- `end` frame: `event: end` with `data: {}`. -/
def endFrame : Frame := ⟨"end", .obj []⟩

/-- The frame sequence produced by `create_run_stream.generate` for a given
stream outcome: one frame per yielded event, an `error` frame when the
iteration raised (the `except` clause), and the `end` frame from the
`finally` clause. -/
def generate (st : AgentStream) : List Frame :=
  st.events.map frameOfEvent
    ++ (match st.err with
        | some msg => [errorFrame msg]
        | none => [])
    ++ [endFrame]

/-- Number of frames of a given kind in a frame sequence. -/
def countKind (fs : List Frame) (k : String) : Nat :=
  (fs.filter (fun f => f.kind = k)).length

/-! ## `server.py` — auth and the run handlers -/

/-- `API_KEY = os.getenv("API_KEY", "")`: the configured bearer secret; the
empty string means unset (dev mode). -/
def apiKeyFromEnv (env : Option String) : String := env.getD ""

/-- Why `verify_api_key` raised `HTTPException(status_code=401, ...)`:
no `Authorization` bearer header, or a token different from `API_KEY`. -/
inductive AuthFail where
  | missingKey | invalidKey
deriving DecidableEq, Repr

/-- `verify_api_key` from `server.py`: when `API_KEY` is empty, admit
(`return True`); otherwise raise 401 when credentials are absent or when the
presented token differs from `API_KEY`. -/
def verify_api_key (apiKey : String) (credentials : Option String) :
    Except AuthFail Bool :=
  if apiKey = "" then .ok true
  else
    match credentials with
    | none => .error .missingKey
    | some c => if c ≠ apiKey then .error .invalidKey else .ok true

/-- The keys of the static `GRAPHS` mapping in `server.py`. -/
def GRAPHS_keys : List String :=
  ["crypto_analysis_agent", "chat_agent", "news_agent", "report_agent",
   "research_agent"]

/-- `agent_id = body.get("assistant_id") or body.get("agent_id")` — the
Python `or` chain over the two request-body fields (`None` for an absent
key). -/
def requestAgentId (body : Json) : Json :=
  pyOr ((body.get "assistant_id").getD .null) ((body.get "agent_id").getD .null)

/-- `agent_id in GRAPHS`: key lookup in the registry dict (a non-string is
never a key). -/
def inGRAPHS : Json → Bool
  | .str s => GRAPHS_keys.contains s
  | _ => false

/-- `stream_mode` normalization in `create_run_stream`: a string becomes a
one-element list, anything else is passed through. -/
def normalizeStreamMode : Json → Json
  | .str s => .arr [.str s]
  | j => j

/-- What `POST /runs` comes to for the caller.  `blocked` marks the handler
suspended on `_async_semaphore.acquire()` with no permit available; the
HTTP error status is 401 (from `verify_api_key`) or 404 (agent not in
`GRAPHS`). -/
inductive RunOutcome where
  | httpError : Nat → RunOutcome
  | blocked : RunOutcome
  | envelope : Json → RunOutcome

/-- `create_run` (`POST /runs`).  `ainvoke` stands for the resolved graph's
`ainvoke(input_data, config=config)` — the value it returns or the message
of the exception it raises.  Returns the outcome, the limiter state after
the handler finishes, and whether the agent was invoked. -/
def create_run (apiKey : String) (credentials : Option String) (body : Json)
    (ainvoke : Json → Json → Except String Json) (s : LimiterState) :
    RunOutcome × LimiterState × Bool :=
  match verify_api_key apiKey credentials with
  | .error _ => (.httpError 401, s, false)
  | .ok _ =>
    let agent_id := requestAgentId body
    let input_data := (body.get "input").getD (.obj [])
    let config := (body.get "config").getD (.obj [])
    if inGRAPHS agent_id then
      if 0 < s.asyncAvail then
        let s1 := s.asyncAcquire
        match ainvoke input_data config with
        | .ok result =>
            (.envelope (.obj [("status", .str "success"), ("result", result)]),
             s1.asyncRelease, true)
        | .error e =>
            (.envelope (.obj [("status", .str "error"), ("error", .str e)]),
             s1.asyncRelease, true)
      else (.blocked, s, false)
    else (.httpError 404, s, false)

/-- What `POST /runs/stream` comes to for the caller once the returned
`StreamingResponse` has been consumed. -/
inductive StreamOutcome where
  | httpError : Nat → StreamOutcome
  | blocked : StreamOutcome
  | stream : List Frame → StreamOutcome

/-- `create_run_stream` (`POST /runs/stream`).  `astream` stands for the
resolved graph's `astream(input_data, config=config, stream_mode=...)` —
the events it yields and the exception (if any) ending the iteration.  The
concurrency slot is held for the entire duration of the stream: `generate`
acquires before iterating and releases only after the `end` frame. -/
def create_run_stream (apiKey : String) (credentials : Option String)
    (body : Json) (astream : Json → Json → Json → AgentStream)
    (s : LimiterState) : StreamOutcome × LimiterState × Bool :=
  match verify_api_key apiKey credentials with
  | .error _ => (.httpError 401, s, false)
  | .ok _ =>
    let agent_id := requestAgentId body
    let input_data := (body.get "input").getD (.obj [])
    let config := (body.get "config").getD (.obj [])
    let stream_mode :=
      normalizeStreamMode
        ((body.get "stream_mode").getD (.arr [.str "custom", .str "values"]))
    if inGRAPHS agent_id then
      if 0 < s.asyncAvail then
        let s1 := s.asyncAcquire
        (.stream (generate (astream input_data config stream_mode)),
         s1.asyncRelease, true)
      else (.blocked, s, false)
    else (.httpError 404, s, false)

/-! ## Claims C1–C7 -/

/-! ## `scheduler.py` / `api.py` — automations

The `AutomationScheduler` holds the in-memory `self.automations` dict, the
durable `automations.json` contents, and APScheduler's job table (one job
per registered trigger; `pause_job` / `resume_job` / `remove_job` raise
`JobLookupError` on an id with no job).  Python dicts keyed by automation
id are modelled as association lists with unique keys maintained by
`ainsert` / `aerase`. -/

/-- Dict lookup `d.get(k)`. -/
def alookup {α : Type} (k : String) : List (String × α) → Option α
  | [] => none
  | (k', v) :: rest => if k' = k then some v else alookup k rest

/-- Dict write `d[k] = v` (replaces an existing binding, else appends). -/
def ainsert {α : Type} (k : String) (v : α) : List (String × α) → List (String × α)
  | [] => [(k, v)]
  | (k', v') :: rest =>
      if k' = k then (k, v) :: rest else (k', v') :: ainsert k v rest

/-- Dict delete `del d[k]`. -/
def aerase {α : Type} (k : String) : List (String × α) → List (String × α)
  | [] => []
  | (k', v') :: rest => if k' = k then rest else (k', v') :: aerase k rest

/-- The automation config dict: the fields of `AutomationRequest` from
`api.py` (`model_dump()`), plus the `id` key added by `create_automation`
and the `paused` key first added by `pause_automation`/`resume_automation`
(`config.get("paused", False)` reads `none` as `False`).  The dict key
`"repeat"` is spelled `repeat_flag` (`repeat` is a Lean keyword). -/
structure AutomationConfig where
  user_id : String
  coin_id : String
  prompt : String
  frequency : String
  repeat_flag : Bool
  day_of_week : Option Int
  day_of_month : Option Int
  time_of_day : String
  id : Option String
  paused : Option Bool
deriving DecidableEq, Repr

/-- The trigger shapes built by `add_automation`: `DateTrigger` (frequency
`once`, `now + 1 minute`) or `CronTrigger` with the fields the code sets —
`day_of_week`, `day` (of month), the `week="*/2"` gate for biweekly, and
hour/minute from `time_of_day`. -/
inductive Trigger where
  | date : Trigger
  | cron : Option Int → Option Int → Bool → Int → Int → Trigger
deriving DecidableEq, Repr

/-- One APScheduler job: its trigger and whether `pause_job` has suspended
it. -/
structure Job where
  trigger : Trigger
  paused : Bool
deriving DecidableEq, Repr

/-- `str.split(":")` over the string's characters. -/
def splitColon : List Char → List (List Char)
  | [] => [[]]
  | c :: rest =>
      let r := splitColon rest
      if c = ':' then [] :: r
      else
        match r with
        | [] => [[c]]
        | g :: gs => (c :: g) :: gs

/-- The value of a nonempty all-digit character sequence, else `none`. -/
def digitsVal (cs : List Char) : Option Nat :=
  if !cs.isEmpty && cs.all Char.isDigit
  then some (cs.foldl (fun n c => n * 10 + (c.toNat - '0'.toNat)) 0)
  else none

/-- Python `int(text)`: an optional sign followed by digits; `none` models
the `ValueError` raised on anything else. -/
def pyInt : List Char → Option Int
  | '-' :: rest => (digitsVal rest).map (fun n => -(n : Int))
  | '+' :: rest => (digitsVal rest).map (fun n => (n : Int))
  | cs => (digitsVal cs).map (fun n => (n : Int))

/-- `hour, minute = config["time_of_day"].split(":")` followed by
`int(hour)`, `int(minute)`: fails when the split does not yield exactly two
parts or a part is not an integer literal. -/
def parseTime (s : String) : Except String (Int × Int) :=
  match splitColon s.data with
  | [h, m] =>
      match pyInt h, pyInt m with
      | some hi, some mi => .ok (hi, mi)
      | _, _ => .error "ValueError: invalid integer literal"
  | _ => .error "ValueError: split did not yield two values"

/-- The trigger-construction branch of `add_automation`: one branch per
recognised frequency; any other frequency leaves the local `trigger`
unassigned, so the later `add_job(trigger=trigger, ...)` call raises
`NameError` (modelled as the error case). -/
def buildTrigger (config : AutomationConfig) : Except String Trigger :=
  if config.frequency = "once" then
    .ok .date
  else if config.frequency = "daily" then
    (parseTime config.time_of_day).map (fun p => .cron none none false p.1 p.2)
  else if config.frequency = "weekly" then
    (parseTime config.time_of_day).map
      (fun p => .cron config.day_of_week none false p.1 p.2)
  else if config.frequency = "biweekly" then
    (parseTime config.time_of_day).map
      (fun p => .cron config.day_of_week none true p.1 p.2)
  else if config.frequency = "monthly" then
    (parseTime config.time_of_day).map
      (fun p => .cron none config.day_of_month false p.1 p.2)
  else .error "NameError: local variable trigger referenced before assignment"

/-- The state of one `AutomationScheduler` instance: the in-memory
`self.automations`, the contents of `automations.json`, and APScheduler's
job table. -/
structure SchedulerState where
  automations : List (String × AutomationConfig)
  automationsFile : List (String × AutomationConfig)
  jobs : List (String × Job)
deriving DecidableEq, Repr

/-- `AutomationScheduler.__init__` on a fresh process: `_load_automations`
reads the durable file, the scheduler starts with no jobs. -/
def initScheduler (stored : List (String × AutomationConfig)) : SchedulerState :=
  ⟨stored, stored, []⟩

/-- APScheduler `pause_job`: `JobLookupError` when the id has no job. -/
def pause_job (jobs : List (String × Job)) (id : String) :
    Except String (List (String × Job)) :=
  match alookup id jobs with
  | none => .error "JobLookupError"
  | some j => .ok (ainsert id { j with paused := true } jobs)

/-- APScheduler `resume_job`: `JobLookupError` when the id has no job. -/
def resume_job (jobs : List (String × Job)) (id : String) :
    Except String (List (String × Job)) :=
  match alookup id jobs with
  | none => .error "JobLookupError"
  | some j => .ok (ainsert id { j with paused := false } jobs)

/-- APScheduler `remove_job`: `JobLookupError` when the id has no job. -/
def remove_job (jobs : List (String × Job)) (id : String) :
    Except String (List (String × Job)) :=
  match alookup id jobs with
  | none => .error "JobLookupError"
  | some _ => .ok (aerase id jobs)

/-- `add_automation`: store the config in `self.automations` and persist
(`_save_automations`) first, then build the trigger and
`add_job(..., replace_existing=True)`.  A trigger-construction failure
(unknown frequency, unparseable `time_of_day`) raises *after* the persist:
the error is returned alongside the state already holding the config. -/
def add_automation (st : SchedulerState) (id : String)
    (config : AutomationConfig) : SchedulerState × Option String :=
  let autos := ainsert id config st.automations
  let st1 : SchedulerState := ⟨autos, autos, st.jobs⟩
  match buildTrigger config with
  | .error e => (st1, some e)
  | .ok trig => ({ st1 with jobs := ainsert id ⟨trig, false⟩ st1.jobs }, none)

/-- `remove_automation`: only when the id is a key of `self.automations`
does it delete the record, persist, and cancel the job (the `remove_job`
call sits in a bare `try/except: pass`, so a missing job is ignored). -/
def remove_automation (st : SchedulerState) (id : String) : SchedulerState :=
  if (alookup id st.automations).isSome then
    let autos := aerase id st.automations
    let jobs :=
      match remove_job st.jobs id with
      | .ok js => js
      | .error _ => st.jobs
    ⟨autos, autos, jobs⟩
  else st

/-- `pause_automation`: `self.scheduler.pause_job(automation_id)` runs
first inside the `try`; when it raises `JobLookupError` the `except` prints
and nothing else happens — in particular the `paused` flag is *not* written.
Only after a successful `pause_job` is the flag set and persisted (and only
when the id is also a key of `self.automations`). -/
def pause_automation (st : SchedulerState) (id : String) : SchedulerState :=
  match pause_job st.jobs id with
  | .error _ => st
  | .ok jobs1 =>
      match alookup id st.automations with
      | some config =>
          let autos := ainsert id { config with paused := some true } st.automations
          ⟨autos, autos, jobs1⟩
      | none => { st with jobs := jobs1 }

/-- `resume_automation`: same shape as `pause_automation`, with
`resume_job` and `paused = False`. -/
def resume_automation (st : SchedulerState) (id : String) : SchedulerState :=
  match resume_job st.jobs id with
  | .error _ => st
  | .ok jobs1 =>
      match alookup id st.automations with
      | some config =>
          let autos := ainsert id { config with paused := some false } st.automations
          ⟨autos, autos, jobs1⟩
      | none => { st with jobs := jobs1 }

/-- The re-registration loop of `AutomationScheduler.start`: every stored
config with `config.get("paused", False)` falsy is re-added; an exception
from `add_automation` propagates out of `start`. -/
def startLoop (st : SchedulerState) :
    List (String × AutomationConfig) → SchedulerState × Option String
  | [] => (st, none)
  | (id, config) :: rest =>
      if config.paused.getD false then startLoop st rest
      else
        match add_automation st id config with
        | (st1, some e) => (st1, some e)
        | (st1, none) => startLoop st1 rest

/-- `AutomationScheduler.start`: re-register the stored automations, then
start the background scheduler. -/
def schedulerStart (st : SchedulerState) : SchedulerState × Option String :=
  startLoop st st.automations

/-- An HTTP response of the automation-management API: status code and JSON
body. -/
structure ApiResponse where
  status : Nat
  body : Json

/-- `DELETE /automations/{id}` from `api.py`: calls
`scheduler.remove_automation` and unconditionally returns
`{"status": "deleted"}` (HTTP 200). -/
def api_delete_automation (st : SchedulerState) (id : String) :
    SchedulerState × ApiResponse :=
  (remove_automation st id, ⟨200, .obj [("status", .str "deleted")]⟩)

/-- `POST /automations/{id}/pause` from `api.py`: calls
`scheduler.pause_automation` and unconditionally returns
`{"status": "paused"}` (HTTP 200). -/
def api_pause_automation (st : SchedulerState) (id : String) :
    SchedulerState × ApiResponse :=
  (pause_automation st id, ⟨200, .obj [("status", .str "paused")]⟩)

/-- `POST /automations/{id}/resume` from `api.py`: calls
`scheduler.resume_automation` and unconditionally returns
`{"status": "resumed"}` (HTTP 200). -/
def api_resume_automation (st : SchedulerState) (id : String) :
    SchedulerState × ApiResponse :=
  (resume_automation st id, ⟨200, .obj [("status", .str "resumed")]⟩)

/-- `POST /automations` from `api.py`: generate an id, extend the request
payload with it, and call `scheduler.add_automation`; an exception there
escapes the endpoint (HTTP 500), after the config was persisted. -/
def api_create_automation (st : SchedulerState) (newId : String)
    (req : AutomationConfig) : SchedulerState × ApiResponse :=
  let config := { req with id := some newId }
  match add_automation st newId config with
  | (st1, some _) => (st1, ⟨500, .obj [("detail", .str "Internal Server Error")]⟩)
  | (st1, none) =>
      (st1, ⟨200, .obj [("automation_id", .str newId),
                        ("status", .str "created")]⟩)

/-! ## Concrete automation configurations used as test inputs -/

/-- A daily automation whose `paused` flag was persisted as `true` before a
process restart. -/
def pausedStoredConfig : AutomationConfig :=
  { user_id := "u1", coin_id := "bitcoin", prompt := "track BTC",
    frequency := "daily", repeat_flag := true, day_of_week := none,
    day_of_month := none, time_of_day := "09:00", id := some "auto-1",
    paused := some true }

/-- The scheduler state after a process restart with `pausedStoredConfig`
on disk: `__init__` loads it, `start()` skips it (it is paused), so no job
is registered for it. -/
def restartedState : SchedulerState :=
  (schedulerStart (initScheduler [("auto-1", pausedStoredConfig)])).1

/-- A one-shot automation (frequency `once`). -/
def onceConfig : AutomationConfig :=
  { user_id := "u1", coin_id := "bitcoin", prompt := "track BTC",
    frequency := "once", repeat_flag := false, day_of_week := none,
    day_of_month := none, time_of_day := "09:00", id := some "auto-2",
    paused := none }

/-- A scheduler state holding `onceConfig` with its live (date-trigger)
job: the result of adding it to an empty scheduler. -/
def liveState : SchedulerState :=
  (add_automation (initScheduler []) "auto-2" onceConfig).1

/-- A one-shot automation whose `time_of_day` is not `HH:MM`. -/
def onceBadTimeConfig : AutomationConfig :=
  { user_id := "u1", coin_id := "ethereum", prompt := "track ETH",
    frequency := "once", repeat_flag := false, day_of_week := none,
    day_of_month := none, time_of_day := "9am", id := some "auto-3",
    paused := none }

/-- An automation whose frequency is outside the five recognised values. -/
def hourlyConfig : AutomationConfig :=
  { user_id := "u1", coin_id := "solana", prompt := "track SOL",
    frequency := "hourly", repeat_flag := true, day_of_week := none,
    day_of_month := none, time_of_day := "09:00", id := some "auto-4",
    paused := none }

/-! ## Helper lemmas -/

theorem limiterInv_init (m : Nat) : LimiterInv m (LimiterState.init m) := by
  refine ⟨rfl, ?_, ?_⟩ <;> simp [LimiterState.init]

theorem limiterInv_step {m : Nat} {s t : LimiterState}
    (hs : LimiterInv m s) (hst : LimiterStep s t) : LimiterInv m t := by
  obtain ⟨hmax, hasync, hsync⟩ := hs
  cases hst with
  | asyncAcquire h =>
      refine ⟨hmax, ?_, hsync⟩
      simp only [LimiterState.asyncAcquire]
      omega
  | asyncRelease h =>
      refine ⟨hmax, ?_, hsync⟩
      simp only [LimiterState.asyncRelease]
      omega
  | syncAcquire h =>
      refine ⟨hmax, hasync, ?_⟩
      simp only [LimiterState.syncAcquire]
      omega
  | syncRelease h =>
      refine ⟨hmax, hasync, ?_⟩
      simp only [LimiterState.syncRelease]
      omega

theorem limiterInv_of_reachable {m : Nat} {s : LimiterState}
    (h : LimiterReachable m s) : LimiterInv m s := by
  induction h with
  | init => exact limiterInv_init m
  | step _ hst ih => exact limiterInv_step ih hst

theorem frameOfEvent_kind_eq_name (e : StreamMode × Json) :
    (frameOfEvent e).kind = e.1.name := by
  obtain ⟨m, chunk⟩ := e
  cases m <;> rfl

theorem countKind_append (fs gs : List Frame) (k : String) :
    countKind (fs ++ gs) k = countKind fs k + countKind gs k := by
  simp [countKind, List.filter_append]

theorem countKind_map_events_end (evs : List (StreamMode × Json)) :
    countKind (evs.map frameOfEvent) "end" = 0 := by
  induction evs with
  | nil => rfl
  | cons e rest ih =>
      have hk : (frameOfEvent e).kind ≠ "end" := by
        rw [frameOfEvent_kind_eq_name]
        cases e.1 <;> simp [StreamMode.name]
      simp only [List.map_cons, countKind, List.filter_cons]
      rw [if_neg (by simpa using hk)]
      exact ih

theorem countKind_map_events_error (evs : List (StreamMode × Json)) :
    countKind (evs.map frameOfEvent) "error" = 0 := by
  induction evs with
  | nil => rfl
  | cons e rest ih =>
      have hk : (frameOfEvent e).kind ≠ "error" := by
        rw [frameOfEvent_kind_eq_name]
        cases e.1 <;> simp [StreamMode.name]
      simp only [List.map_cons, countKind, List.filter_cons]
      rw [if_neg (by simpa using hk)]
      exact ih

theorem alookup_ainsert_self {α : Type} (k : String) (v : α)
    (l : List (String × α)) : alookup k (ainsert k v l) = some v := by
  induction l with
  | nil => simp [ainsert, alookup]
  | cons hd tl ih =>
      obtain ⟨k', v'⟩ := hd
      by_cases h : k' = k <;> simp [ainsert, alookup, h, ih]

theorem buildTrigger_err_of_parse_err (config : AutomationConfig)
    (e : String)
    (hmem : config.frequency = "daily" ∨ config.frequency = "weekly" ∨
            config.frequency = "biweekly" ∨ config.frequency = "monthly")
    (he : parseTime config.time_of_day = .error e) :
    buildTrigger config = .error e := by
  unfold buildTrigger
  rcases hmem with h | h | h | h <;> rw [h] <;> simp [he, Except.map]

/-! ## Claims -/

/-- **C1.** The async and sync admission paths use independent counting
semaphores, each of capacity `max_concurrent` (default 2 when the
environment variable is unset): in every reachable limiter state at most
`max_concurrent` async and at most `max_concurrent` sync executions hold
slots, the global ceiling is `2 * max_concurrent`, and an async (resp.
sync) acquire is enabled exactly while fewer than `max_concurrent` holders
are active — so with `max_concurrent = N`, among N+1 concurrent async
acquirers at most N are admitted, and the (N+1)-th only once one of them
has released its slot (a release re-enables the acquire). -/
theorem limiter_independent_semaphores_bound {m : Nat} {s : LimiterState}
    (h : LimiterReachable m s) :
    maxConcurrentFromEnv none = 2 ∧
    s.maxConcurrent = m ∧
    s.activeAsync ≤ s.maxConcurrent ∧
    s.activeSync ≤ s.maxConcurrent ∧
    s.activeAsync + s.activeSync ≤ 2 * s.maxConcurrent ∧
    (0 < s.asyncAvail ↔ s.activeAsync < s.maxConcurrent) ∧
    (0 < s.syncAvail ↔ s.activeSync < s.maxConcurrent) ∧
    (s.activeAsync = s.maxConcurrent → 0 < s.asyncRelease.asyncAvail) := by
  obtain ⟨hmax, hasync, hsync⟩ := limiterInv_of_reachable h
  subst hmax
  refine ⟨by rfl, rfl, by omega, by omega, by omega, by omega, by omega, ?_⟩
  intro hfull
  simp only [LimiterState.asyncRelease]
  omega

theorem limiter_independent_semaphores_bound_witness :
    LimiterReachable 2 (LimiterState.init 2) ∧
    ((LimiterState.init 2).activeAsync ≤ (LimiterState.init 2).maxConcurrent ∧
     (0 < (LimiterState.init 2).asyncAvail ↔
        (LimiterState.init 2).activeAsync < (LimiterState.init 2).maxConcurrent)) :=
  ⟨LimiterReachable.init,
   (limiter_independent_semaphores_bound LimiterReachable.init).2.2.1,
   (limiter_independent_semaphores_bound LimiterReachable.init).2.2.2.2.2.1⟩

/-- **C2.** A guarded operation run under the limiter — `with sync_limit()`
or `async with ExecutionLimiter()` — releases its slot on every exit path:
whatever the body's outcome (value or exception), the limiter state after
the guarded run equals the state before the acquire, in particular the
active counter returns to its pre-acquire value, and the body's outcome
passes through unchanged. -/
theorem limiter_release_on_every_exit_path {α : Type} (s : LimiterState)
    (body : Except String α)
    (ha : 0 < s.asyncAvail) (hs : 0 < s.syncAvail) :
    (runWithExecutionLimiter s body).2 = s ∧
    (runWithExecutionLimiter s body).2.activeAsync = s.activeAsync ∧
    (runWithExecutionLimiter s body).1 = body ∧
    (runWithSyncLimit s body).2 = s ∧
    (runWithSyncLimit s body).2.activeSync = s.activeSync ∧
    (runWithSyncLimit s body).1 = body := by
  obtain ⟨m, aa, sa, na, ns⟩ := s
  simp only [] at ha hs
  refine ⟨?_, ?_, rfl, ?_, ?_, rfl⟩ <;>
    simp only [runWithExecutionLimiter, runWithSyncLimit,
      LimiterState.asyncAcquire, LimiterState.asyncRelease,
      LimiterState.syncAcquire, LimiterState.syncRelease,
      LimiterState.mk.injEq, and_true, true_and, Nat.add_sub_cancel] <;>
    omega

theorem limiter_release_on_every_exit_path_witness :
    (runWithExecutionLimiter (LimiterState.init 2)
        (Except.error "agent failed" : Except String Json)).2 =
      LimiterState.init 2 ∧
    (runWithSyncLimit (LimiterState.init 2)
        (Except.error "agent failed" : Except String Json)).2.activeSync =
      (LimiterState.init 2).activeSync :=
  ⟨(limiter_release_on_every_exit_path (LimiterState.init 2)
      (Except.error "agent failed") (by decide) (by decide)).1,
   (limiter_release_on_every_exit_path (LimiterState.init 2)
      (Except.error "agent failed") (by decide) (by decide)).2.2.2.2.1⟩

/-- **C3.** For every stream outcome of the underlying agent invocation —
normal completion (`err = none`) or an exception at any point
(`err = some msg`) — the frame sequence produced by `generate` contains
exactly one `end` frame, and it is the last frame. -/
theorem run_stream_exactly_one_end_frame_last (st : AgentStream) :
    countKind (generate st) "end" = 1 ∧
    (generate st).getLast? = some endFrame := by
  constructor
  · unfold generate
    rw [countKind_append, countKind_append, countKind_map_events_end]
    cases st.err <;> rfl
  · unfold generate
    rw [List.append_assoc]
    rcases st.err with _ | msg <;>
      simp [List.getLast?_append, endFrame, errorFrame]

/-- **C4.** When the underlying agent invocation raises with message `msg`,
the frame sequence contains exactly one `error` frame, its payload is
`{"message": msg}`, and it sits immediately before the terminal `end`
frame; the exception itself is turned into data (a frame), never
propagated. -/
theorem run_stream_error_frame_before_end (st : AgentStream) (msg : String)
    (h : st.err = some msg) :
    countKind (generate st) "error" = 1 ∧
    (errorFrame msg).payload = Json.obj [("message", Json.str msg)] ∧
    generate st = st.events.map frameOfEvent ++ [errorFrame msg, endFrame] := by
  refine ⟨?_, rfl, ?_⟩
  · unfold generate
    rw [countKind_append, countKind_append, countKind_map_events_error, h]
    rfl
  · unfold generate
    rw [h, List.append_assoc]
    exact rfl

theorem run_stream_error_frame_before_end_witness :
    (⟨[], some "boom"⟩ : AgentStream).err = some "boom" ∧
    generate ⟨[], some "boom"⟩ = [errorFrame "boom", endFrame] :=
  ⟨rfl, by
    have h := run_stream_error_frame_before_end ⟨[], some "boom"⟩ "boom" rfl
    simpa using h.2.2⟩

/-- **C5.** For an authenticated request naming an `agent_id` that is not a
key of `GRAPHS`, both `POST /runs` and `POST /runs/stream` fail with a 404
HTTPException, no concurrency slot is acquired (the limiter state — in
particular `active_async` — is unchanged), and the agent is never
invoked. -/
theorem unknown_agent_not_found_no_slot (apiKey : String)
    (credentials : Option String) (body : Json)
    (ainvoke : Json → Json → Except String Json)
    (astream : Json → Json → Json → AgentStream) (s : LimiterState)
    (hauth : verify_api_key apiKey credentials = .ok true)
    (hid : inGRAPHS (requestAgentId body) = false) :
    create_run apiKey credentials body ainvoke s =
      (.httpError 404, s, false) ∧
    create_run_stream apiKey credentials body astream s =
      (.httpError 404, s, false) ∧
    (create_run apiKey credentials body ainvoke s).2.1.activeAsync =
      s.activeAsync ∧
    (create_run_stream apiKey credentials body astream s).2.1.activeAsync =
      s.activeAsync := by
  refine ⟨?_, ?_, ?_, ?_⟩ <;>
    simp [create_run, create_run_stream, hauth, hid]

theorem unknown_agent_not_found_no_slot_witness :
    verify_api_key "" none = .ok true ∧
    inGRAPHS (requestAgentId (Json.obj
      [("agent_id", Json.str "nonexistent_agent")])) = false ∧
    create_run "" none (Json.obj [("agent_id", Json.str "nonexistent_agent")])
        (fun _ _ => .ok .null) (LimiterState.init 2) =
      (.httpError 404, LimiterState.init 2, false) :=
  ⟨rfl, by decide,
   (unknown_agent_not_found_no_slot "" none
      (Json.obj [("agent_id", Json.str "nonexistent_agent")])
      (fun _ _ => .ok .null) (fun _ _ _ => ⟨[], none⟩)
      (LimiterState.init 2) rfl (by decide)).1⟩

/-- **C6.** With the bearer secret `API_KEY` configured non-empty, a request
to `POST /runs` or `POST /runs/stream` with no bearer credentials, or with
a token different from the secret, fails with a 401 HTTPException before
any agent executes and before any concurrency slot is consumed (limiter
state unchanged, agent not invoked); with the secret unset, the same
credentials pass `verify_api_key`. -/
theorem auth_gate_short_circuits_before_slot (apiKey : String)
    (credentials : Option String) (body : Json)
    (ainvoke : Json → Json → Except String Json)
    (astream : Json → Json → Json → AgentStream) (s : LimiterState)
    (hset : apiKey ≠ "")
    (hbad : credentials = none ∨ ∃ c, credentials = some c ∧ c ≠ apiKey) :
    create_run apiKey credentials body ainvoke s =
      (.httpError 401, s, false) ∧
    create_run_stream apiKey credentials body astream s =
      (.httpError 401, s, false) ∧
    verify_api_key "" credentials = .ok true := by
  have he : ∃ e, verify_api_key apiKey credentials = .error e := by
    rcases hbad with h | ⟨c, hc, hne⟩
    · exact ⟨.missingKey, by simp [verify_api_key, hset, h]⟩
    · exact ⟨.invalidKey, by simp [verify_api_key, hset, hc, hne]⟩
  obtain ⟨e, he⟩ := he
  refine ⟨?_, ?_, ?_⟩
  · simp [create_run, he]
  · simp [create_run_stream, he]
  · simp [verify_api_key]

theorem auth_gate_short_circuits_before_slot_witness :
    ("secret-token" : String) ≠ "" ∧
    create_run "secret-token" none (Json.obj
        [("agent_id", Json.str "chat_agent")])
        (fun _ _ => .ok .null) (LimiterState.init 2) =
      (.httpError 401, LimiterState.init 2, false) :=
  ⟨by decide,
   (auth_gate_short_circuits_before_slot "secret-token" none
      (Json.obj [("agent_id", Json.str "chat_agent")])
      (fun _ _ => .ok .null) (fun _ _ _ => ⟨[], none⟩)
      (LimiterState.init 2) (by decide) (Or.inl rfl)).1⟩

/-- **C7.** Each source event maps 1:1 to an output frame: the frame kind is
the source event name and the payload is unchanged, except `messages`
events, whose payload becomes the 2-element structure `[role, chunk]` with
the role read from the chunk's `"type"` field and defaulting to `"ai"` when
the payload does not specify one (absent key, or a non-dict chunk). -/
theorem stream_event_mapping (m : StreamMode) (chunk : Json) :
    (m ≠ StreamMode.messages → frameOfEvent (m, chunk) = ⟨m.name, chunk⟩) ∧
    (∀ r, chunk.get "type" = some r →
      frameOfEvent (StreamMode.messages, chunk) =
        ⟨"messages", Json.arr [r, chunk]⟩) ∧
    (chunk.get "type" = none →
      frameOfEvent (StreamMode.messages, chunk) =
        ⟨"messages", Json.arr [Json.str "ai", chunk]⟩) := by
  refine ⟨?_, ?_, ?_⟩
  · intro hm
    cases m <;> first | rfl | exact absurd rfl hm
  · intro r hr
    cases chunk <;> simp_all [frameOfEvent, Json.get, Json.isDict]
  · intro hr
    cases chunk <;> simp_all [frameOfEvent, Json.get, Json.isDict]

theorem stream_event_mapping_witness :
    frameOfEvent (StreamMode.custom, Json.str "tick") =
      ⟨"custom", Json.str "tick"⟩ ∧
    frameOfEvent (StreamMode.messages, Json.obj [("type", Json.str "human")]) =
      ⟨"messages", Json.arr [Json.str "human",
        Json.obj [("type", Json.str "human")]]⟩ ∧
    frameOfEvent (StreamMode.messages, Json.obj [("content", Json.str "hi")]) =
      ⟨"messages", Json.arr [Json.str "ai",
        Json.obj [("content", Json.str "hi")]]⟩ :=
  ⟨(stream_event_mapping StreamMode.custom (Json.str "tick")).1 (by decide),
   (stream_event_mapping StreamMode.messages
      (Json.obj [("type", Json.str "human")])).2.1 (Json.str "human") rfl,
   (stream_event_mapping StreamMode.messages
      (Json.obj [("content", Json.str "hi")])).2.2 rfl⟩

/-- **C8 (counterexample).** The claim fails for an automation id that is
present in the store but has no registered job: after a restart with a
paused automation on disk, `start()` skips it (no job), so
`resume_automation` hits `JobLookupError` in `resume_job`, the `except`
swallows it, and the persisted `paused` flag stays `true` — `resume` does
not set it to `false`. -/
theorem pause_resume_persist_counterexample :
    (alookup "auto-1" restartedState.automations).isSome = true ∧
    resume_automation restartedState "auto-1" = restartedState ∧
    (alookup "auto-1"
        (resume_automation restartedState "auto-1").automationsFile).map
      AutomationConfig.paused = some (some true) := by
  refine ⟨by decide, by decide, by decide⟩

/-- **C8 (amended).** For every automation id present in the store *that
also has a registered job in the scheduler*, `pause_automation` sets the
persisted `paused` flag to `true` and suspends the live trigger, and
`resume_automation` sets it to `false` and reactivates the trigger; in both
cases the updated flag is written to durable storage.  (When the id has no
job — e.g. a config paused before a restart — the `JobLookupError` is
caught and the flag is left untouched.) -/
theorem pause_resume_set_and_persist_flag (st : SchedulerState) (id : String)
    (c : AutomationConfig) (j : Job)
    (hc : alookup id st.automations = some c)
    (hj : alookup id st.jobs = some j) :
    (alookup id (pause_automation st id).automations).map
      AutomationConfig.paused = some (some true) ∧
    (alookup id (pause_automation st id).automationsFile).map
      AutomationConfig.paused = some (some true) ∧
    (alookup id (pause_automation st id).jobs).map Job.paused = some true ∧
    (alookup id (resume_automation st id).automations).map
      AutomationConfig.paused = some (some false) ∧
    (alookup id (resume_automation st id).automationsFile).map
      AutomationConfig.paused = some (some false) ∧
    (alookup id (resume_automation st id).jobs).map Job.paused = some false := by
  have hp : pause_job st.jobs id =
      .ok (ainsert id { j with paused := true } st.jobs) := by
    simp [pause_job, hj]
  have hr : resume_job st.jobs id =
      .ok (ainsert id { j with paused := false } st.jobs) := by
    simp [resume_job, hj]
  refine ⟨?_, ?_, ?_, ?_, ?_, ?_⟩ <;>
    simp [pause_automation, resume_automation, hp, hr, hc,
      alookup_ainsert_self]

theorem pause_resume_set_and_persist_flag_witness :
    alookup "auto-2" liveState.automations = some onceConfig ∧
    alookup "auto-2" liveState.jobs = some ⟨Trigger.date, false⟩ ∧
    (alookup "auto-2"
        (pause_automation liveState "auto-2").automationsFile).map
      AutomationConfig.paused = some (some true) ∧
    (alookup "auto-2"
        (resume_automation liveState "auto-2").automationsFile).map
      AutomationConfig.paused = some (some false) :=
  ⟨by decide, by decide,
   (pause_resume_set_and_persist_flag liveState "auto-2" onceConfig
      ⟨Trigger.date, false⟩ (by decide) (by decide)).2.1,
   (pause_resume_set_and_persist_flag liveState "auto-2" onceConfig
      ⟨Trigger.date, false⟩ (by decide) (by decide)).2.2.2.2.1⟩

/-- **C9 (counterexample).** For an automation id absent from the store,
none of delete / pause / resume surfaces a NotFound: each endpoint returns
its regular HTTP-200 success envelope (`remove_automation` is a silent
no-op; the `JobLookupError` from `pause_job`/`resume_job` is caught and
printed). -/
theorem automation_unknown_id_counterexample :
    alookup "missing" (initScheduler []).automations = none ∧
    (api_delete_automation (initScheduler []) "missing").2.status = 200 ∧
    (api_delete_automation (initScheduler []) "missing").2.status ≠ 404 ∧
    (api_pause_automation (initScheduler []) "missing").2.status = 200 ∧
    (api_resume_automation (initScheduler []) "missing").2.status = 200 :=
  ⟨rfl, rfl, by decide, rfl, rfl⟩

/-- **C9 (amended).** For every automation id not present in the store (and
with no registered job), the management operations are indeed never fatal
to the process — each returns normally — but they do *not* surface a
NotFound: delete, pause and resume all answer HTTP 200 with their usual
success envelope and leave the scheduler state unchanged. -/
theorem automation_unknown_id_never_fatal (st : SchedulerState) (id : String)
    (ha : alookup id st.automations = none)
    (hj : alookup id st.jobs = none) :
    api_delete_automation st id =
      (st, ⟨200, .obj [("status", .str "deleted")]⟩) ∧
    api_pause_automation st id =
      (st, ⟨200, .obj [("status", .str "paused")]⟩) ∧
    api_resume_automation st id =
      (st, ⟨200, .obj [("status", .str "resumed")]⟩) := by
  refine ⟨?_, ?_, ?_⟩ <;>
    simp [api_delete_automation, api_pause_automation, api_resume_automation,
      remove_automation, pause_automation, resume_automation,
      pause_job, resume_job, ha, hj]

theorem automation_unknown_id_never_fatal_witness :
    alookup "missing" (initScheduler []).automations = none ∧
    api_delete_automation (initScheduler []) "missing" =
      (initScheduler [], ⟨200, .obj [("status", .str "deleted")]⟩) :=
  ⟨rfl,
   (automation_unknown_id_never_fatal (initScheduler []) "missing"
      rfl rfl).1⟩

/-- **C10 (counterexample).** The claim quantifies over every config "whose
frequency is outside the set *or* whose time_of_day is malformed"; but a
config with frequency `once` never parses `time_of_day`, so with a
malformed time it raises nothing: `add_automation` completes and registers
a date-trigger job. -/
theorem add_automation_once_malformed_time_counterexample :
    parseTime onceBadTimeConfig.time_of_day =
      .error "ValueError: split did not yield two values" ∧
    (add_automation (initScheduler []) "auto-3" onceBadTimeConfig).2 = none ∧
    alookup "auto-3"
        (add_automation (initScheduler []) "auto-3" onceBadTimeConfig).1.jobs =
      some ⟨Trigger.date, false⟩ := by
  refine ⟨rfl, by decide, by decide⟩

/-- **C10 (amended).** `add_automation` writes the config to the durable
store before constructing the trigger, so for every config whose frequency
is outside {once, daily, weekly, biweekly, monthly} — or whose frequency is
one of daily/weekly/biweekly/monthly while its `time_of_day` fails to parse
— `add_automation` raises after the config has already been persisted,
leaving a stored automation with no registered trigger: the add operation
is not atomic on error. -/
theorem add_automation_persists_before_raising (st : SchedulerState)
    (id : String) (config : AutomationConfig)
    (hbad :
      (config.frequency ≠ "once" ∧ config.frequency ≠ "daily" ∧
       config.frequency ≠ "weekly" ∧ config.frequency ≠ "biweekly" ∧
       config.frequency ≠ "monthly") ∨
      ((config.frequency = "daily" ∨ config.frequency = "weekly" ∨
        config.frequency = "biweekly" ∨ config.frequency = "monthly") ∧
       ∃ e, parseTime config.time_of_day = .error e))
    (hfresh : alookup id st.jobs = none) :
    (add_automation st id config).2.isSome = true ∧
    alookup id (add_automation st id config).1.automations = some config ∧
    alookup id (add_automation st id config).1.automationsFile = some config ∧
    alookup id (add_automation st id config).1.jobs = none := by
  have herr : ∃ e, buildTrigger config = .error e := by
    rcases hbad with ⟨h1, h2, h3, h4, h5⟩ | ⟨hmem, e, he⟩
    · exact ⟨"NameError: local variable trigger referenced before assignment",
        by simp [buildTrigger, h1, h2, h3, h4, h5]⟩
    · exact ⟨e, buildTrigger_err_of_parse_err config e hmem he⟩
  obtain ⟨e, he⟩ := herr
  refine ⟨?_, ?_, ?_, ?_⟩ <;>
    simp [add_automation, he, alookup_ainsert_self, hfresh]

theorem add_automation_persists_before_raising_witness :
    hourlyConfig.frequency = "hourly" ∧
    alookup "auto-4" (initScheduler []).jobs = none ∧
    (add_automation (initScheduler []) "auto-4" hourlyConfig).2.isSome = true ∧
    alookup "auto-4"
        (add_automation (initScheduler []) "auto-4" hourlyConfig).1.automationsFile =
      some hourlyConfig ∧
    alookup "auto-4"
        (add_automation (initScheduler []) "auto-4" hourlyConfig).1.jobs = none :=
  ⟨rfl, rfl,
   (add_automation_persists_before_raising (initScheduler []) "auto-4"
      hourlyConfig (Or.inl (by decide)) rfl).1,
   (add_automation_persists_before_raising (initScheduler []) "auto-4"
      hourlyConfig (Or.inl (by decide)) rfl).2.2.1,
   (add_automation_persists_before_raising (initScheduler []) "auto-4"
      hourlyConfig (Or.inl (by decide)) rfl).2.2.2⟩

end Axos
